import Mathlib

/-!
Verification of the data-preparation pipeline of a public-health dashboard.

Shallow embedding of `src/utils/prep.py` (clean_raw_data,
create_business_features, generate_analysis_tables) and
`src/utils/io.py` (load_raw_dataset).

Modelling conventions:
* a raw cell is an `RVal`: a rational number, a text, or null (NaN);
  `pd.to_numeric(errors="coerce")` sends text and null to null;
* dates are carried already parsed (`Option Date`); `pd.to_datetime`
  with `errors="coerce"` followed by `dropna` appears as a filter on
  parse success, the multi-format parser itself is not modelled;
* machine floats are modelled as exact rationals; `np.round` is
  round-half-to-even on the scaled rational;
* `DataFrame` columns that matter at frame level (presence of the
  optional `resource_utilization` column, presence of an already merged
  `vaccine_coverage` column) are booleans on the frame structure.
-/

namespace PHPipeline

/-- A raw table cell: numeric, text, or null (NaN). -/
inductive RVal where
  | num (q : ℚ)
  | txt (s : String)
  | null
deriving DecidableEq, Repr

/-- A parsed calendar date (only the parts the pipeline reads). -/
structure Date where
  year : ℤ
  month : ℕ
  day : ℕ
deriving DecidableEq, Repr

/-- `pd.to_numeric(errors="coerce")` on one cell. -/
def toNumericQ : RVal → Option ℚ
  | .num q => some q
  | .txt _ => none
  | .null => none

/-- The text of a cell, if it is text. -/
def asTxt : RVal → Option String
  | .txt s => some s
  | _ => none

/-- The numeric content of a cell, if it is a whole number. -/
def asInt : RVal → Option ℤ
  | .num q => if q.den = 1 then some q.num else none
  | _ => none

/-- `float → int` conversion of numpy/pandas `astype(int)`:
truncation toward zero. -/
def truncToInt (q : ℚ) : ℤ :=
  if 0 ≤ q then ⌊q⌋ else -⌊-q⌋

/-- Round half to even, the rounding of `np.round`, on an integer target. -/
def roundHalfEven (q : ℚ) : ℤ :=
  let f := ⌊q⌋
  let r := q - (f : ℚ)
  if r < 1 / 2 then f
  else if 1 / 2 < r then f + 1
  else if f % 2 = 0 then f else f + 1

/-- `np.round(q, d)`. -/
def npRound (q : ℚ) (d : ℕ) : ℚ :=
  (roundHalfEven (q * 10 ^ d) : ℚ) / 10 ^ d

/-- Python `str.title()`: upper-case every character that starts an
alphabetic run, lower-case the rest of the run. -/
def strTitle (s : String) : String :=
  (s.data.foldl
    (fun (acc : List Char × Bool) c =>
      let c' := if c.isAlpha then (if acc.2 then c.toLower else c.toUpper) else c
      (acc.1 ++ [c'], c.isAlpha))
    ([], false)).1.asString

/-- `Series.str.title().str.strip()` on one cell: non-text cells become
null (the `.str` accessor yields NaN on them). -/
def catTransform : RVal → RVal
  | .txt s => .txt ((strTitle s).trim)
  | _ => .null

/-- `Series.mode()[0]`: the least (lexicographically) among the most
frequent non-null values; `none` when there are no values. -/
def modeList (l : List String) : Option String :=
  match l with
  | [] => none
  | _ =>
    let maxCount := (l.map (fun s => l.count s)).foldl max 0
    let best := (l.dedup.filter (fun s => l.count s = maxCount))
    best.foldl
      (fun acc s =>
        match acc with
        | none => some s
        | some t => some (if s < t then s else t))
      none

/-- `Series.median()` skipping nulls: middle of the sorted values, or
mean of the two middles; `none` on an empty column. -/
def medianList (l : List ℚ) : Option ℚ :=
  match l with
  | [] => none
  | _ =>
    let sorted := List.insertionSort (fun a b : ℚ => a ≤ b) l
    let n := l.length
    if n % 2 = 1 then some (sorted.getD (n / 2) 0)
    else some ((sorted.getD (n / 2 - 1) 0 + sorted.getD (n / 2) 0) / 2)

/-- One working row of the pipeline, with the ten core fields (after
field-name normalization: lower-case, underscores) plus the optional
`resource_utilization` cell. -/
structure WRec where
  date_of_onset : Option Date
  location : RVal
  ses : RVal
  immunity_level : RVal
  chronic_conditions : RVal
  vaccination_status : RVal
  daily_new_cases : RVal
  hospital_capacity : RVal
  hospitalization_requirement : RVal
  age : RVal
  resource_utilization : Option ℚ
deriving DecidableEq, Repr

/-! ### Cleaner (`clean_raw_data`, src/utils/prep.py lines 13-106)

The source mutates one frame column by column; the embedding applies
the same per-column steps to the row list.  Field-name normalization
(line 19) is implicit: `WRec` field names are already canonical. -/

/-- Step 2 of `clean_raw_data`: drop rows whose onset date failed to
parse (`pd.to_datetime(errors="coerce")` + `dropna`). -/
def datePhase (l : List WRec) : List WRec :=
  l.filter (fun r => r.date_of_onset.isSome)

/-- Step 3 of `clean_raw_data` for one categorical column: title-case
and strip, then fill nulls with the column mode (or "Unknown"). -/
def catStepOn (get : WRec → RVal) (set : WRec → RVal → WRec)
    (l : List WRec) : List WRec :=
  let l1 := l.map (fun r => set r (catTransform (get r)))
  let m := modeList (l1.filterMap (fun r => asTxt (get r)))
  l1.map (fun r =>
    if get r = RVal.null then set r (RVal.txt (m.getD "Unknown")) else r)

/-- Step 3 of `clean_raw_data`: the three categorical columns in source
order (`location`, `ses`, `immunity_level`). -/
def catPhase (l : List WRec) : List WRec :=
  catStepOn WRec.immunity_level (fun r v => { r with immunity_level := v })
    (catStepOn WRec.ses (fun r v => { r with ses := v })
      (catStepOn WRec.location (fun r v => { r with location := v }) l))

/-- Step 4 of `clean_raw_data` for one binary column: coerce to numeric,
fill nulls with 0, truncate to int (`astype(int)`), then keep only rows
whose value is 0 or 1 (`isin([0, 1])`). -/
def binStepOn (get : WRec → RVal) (set : WRec → RVal → WRec)
    (l : List WRec) : List WRec :=
  let l1 := l.map (fun r =>
    set r (RVal.num ((truncToInt ((toNumericQ (get r)).getD 0) : ℤ) : ℚ)))
  l1.filter (fun r => get r == RVal.num 0 || get r == RVal.num 1)

/-- Step 4 of `clean_raw_data`: the two binary columns in source order
(`chronic_conditions`, `vaccination_status`). -/
def binPhase (l : List WRec) : List WRec :=
  binStepOn WRec.vaccination_status (fun r v => { r with vaccination_status := v })
    (binStepOn WRec.chronic_conditions (fun r v => { r with chronic_conditions := v }) l)

/-- Step 5 of `clean_raw_data` for one numeric column: coerce to
numeric, fill nulls with the column median (business default when the
whole column is null), then drop the rows failing the per-field outlier
rule. -/
def numStepOn (get : WRec → RVal) (set : WRec → RVal → WRec)
    (defaultVal : ℚ) (keep : ℚ → Bool) (l : List WRec) : List WRec :=
  let l1 := l.map (fun r =>
    set r (((toNumericQ (get r)).map RVal.num).getD RVal.null))
  let med := (medianList (l1.filterMap (fun r => toNumericQ (get r)))).getD defaultVal
  let l2 := l1.map (fun r =>
    if get r = RVal.null then set r (RVal.num med) else r)
  l2.filter (fun r => ((toNumericQ (get r)).map keep).getD false)

/-- Step 5 of `clean_raw_data`: the four numeric columns in source order
with their business defaults and outlier rules. -/
def numPhase (l : List WRec) : List WRec :=
  numStepOn WRec.age (fun r v => { r with age := v }) 35
    (fun q => decide (0 ≤ q ∧ q ≤ 120))
    (numStepOn WRec.hospitalization_requirement
      (fun r v => { r with hospitalization_requirement := v }) 10
      (fun q => decide (0 < q))
      (numStepOn WRec.hospital_capacity
        (fun r v => { r with hospital_capacity := v }) 100
        (fun q => decide (0 < q))
        (numStepOn WRec.daily_new_cases
          (fun r v => { r with daily_new_cases := v }) 0
          (fun q => decide (0 ≤ q)) l)))

/-- Error message of the final emptiness check of `clean_raw_data`. -/
def cleanErrMsg : String :=
  "No valid data left after cleaning! Check raw data quality"

/-- `clean_raw_data` (src/utils/prep.py lines 13-106): the per-column
phases in source order, then the fatal emptiness check (line 101). -/
def clean_raw_data (l : List WRec) : Except String (List WRec) :=
  let cleaned := numPhase (binPhase (catPhase (datePhase l)))
  if cleaned.isEmpty then .error cleanErrMsg else .ok cleaned

/-- A fully cleaned row: every core field non-null and of its final
type. -/
structure CRec where
  date_of_onset : Date
  location : String
  ses : String
  immunity_level : String
  chronic_conditions : ℤ
  vaccination_status : ℤ
  daily_new_cases : ℚ
  hospital_capacity : ℚ
  hospitalization_requirement : ℚ
  age : ℚ
  resource_utilization : Option ℚ
deriving DecidableEq, Repr

/-- Read a working row as a cleaned row; succeeds exactly when all ten
core fields are non-null and in final form. -/
def toCRec (r : WRec) : Option CRec := do
  let d ← r.date_of_onset
  let loc ← asTxt r.location
  let s ← asTxt r.ses
  let imm ← asTxt r.immunity_level
  let cc ← asInt r.chronic_conditions
  let vs ← asInt r.vaccination_status
  let dnc ← toNumericQ r.daily_new_cases
  let cap ← toNumericQ r.hospital_capacity
  let req ← toNumericQ r.hospitalization_requirement
  let a ← toNumericQ r.age
  pure ⟨d, loc, s, imm, cc, vs, dnc, cap, req, a, r.resource_utilization⟩

/-! ### Feature Builder (`create_business_features`, src/utils/prep.py
lines 109-175) -/

/-- A cleaned frame: rows plus the frame-level facts the builder
branches on — whether a `resource_utilization` column exists and
whether a `vaccine_coverage` column is already present (it is after a
first builder run). -/
structure CDF where
  rows : List CRec
  hasRU : Bool
  hasVC : Bool
deriving DecidableEq, Repr

/-- The fixed month → season table (lines 118-120). -/
def monthSeason : ℕ → Option String
  | 1 => some "Winter"
  | 2 => some "Winter"
  | 3 => some "Spring"
  | 4 => some "Spring"
  | 5 => some "Spring"
  | 6 => some "Summer"
  | 7 => some "Summer"
  | 8 => some "Summer"
  | 9 => some "Autumn"
  | 10 => some "Autumn"
  | 11 => some "Autumn"
  | 12 => some "Winter"
  | _ => none

/-- `pd.cut(age, bins=[0,18,65,120], include_lowest=True)`
(lines 125-130): closed-left at 0, right-inclusive bins; values outside
[0,120] get no band (NaN). -/
def ageGroup (a : ℚ) : Option String :=
  if a < 0 then none
  else if a ≤ 18 then some "Child (0-18)"
  else if a ≤ 65 then some "Adult (19-65)"
  else if a ≤ 120 then some "Elderly (66+)"
  else none

/-- The season → transmission-rate table (line 167). -/
def seasonRate (s : String) : Option ℚ :=
  if s = "Winter" then some (12 / 10)
  else if s = "Spring" then some (9 / 10)
  else if s = "Summer" then some (6 / 10)
  else if s = "Autumn" then some (8 / 10)
  else none

/-- One feature row: the cleaned row plus the derived columns. -/
structure FRec where
  base : CRec
  year : ℤ
  month : ℕ
  season : Option String
  age_group : Option String
  vaccine_coverage : ℚ
  resource_load : Option ℚ
  transmission_rate : Option ℚ
deriving DecidableEq, Repr

/-- A feature frame. -/
structure FDF where
  rows : List FRec
  hasRU : Bool
deriving DecidableEq, Repr

/-- The vaccine-coverage of one row's (year, location) group
(lines 134-136): vaccinated count over group size (0 for an empty
group), later rounded to 3 decimals (line 145). -/
def coverageFor (rows : List CRec) (year : ℤ) (loc : String) : ℚ :=
  let grp := rows.filter (fun s =>
    s.date_of_onset.year == year && s.location == loc)
  if grp.length = 0 then 0
  else (grp.countP (fun s => s.vaccination_status == 1) : ℚ) / (grp.length : ℚ)

/-- `create_business_features` (src/utils/prep.py lines 109-175).

When the input frame already carries a `vaccine_coverage` column, the
left merge of lines 138-143 suffixes the duplicated column to
`vaccine_coverage_x` / `vaccine_coverage_y`, so the read of
`feature_df["vaccine_coverage"]` on line 145 raises a `KeyError`:
modelled as the error branch. -/
def create_business_features (df : CDF) : Except String FDF :=
  if df.hasVC then .error "KeyError: vaccine_coverage" else
  let useRU := df.hasRU && !(df.rows.all (fun s => s.resource_utilization == none))
  .ok
    { rows := df.rows.map (fun r =>
        let year := r.date_of_onset.year
        let month := r.date_of_onset.month
        let season := monthSeason month
        let cov := npRound (coverageFor df.rows year r.location) 3
        let rl0 : Option ℚ :=
          if useRU then r.resource_utilization.map (fun u => max 0 (min (u / 100) 5))
          else some (if 0 < r.hospital_capacity
                     then r.hospitalization_requirement / r.hospital_capacity
                     else 0)
        { base := r
          year := year
          month := month
          season := season
          age_group := ageGroup r.age
          vaccine_coverage := cov
          resource_load := rl0.map (fun x => min (npRound x 3) 5)
          transmission_rate := (season.bind seasonRate).map (fun x => npRound x 2) })
      hasRU := df.hasRU }

/-! ### Aggregator (`generate_analysis_tables`, src/utils/prep.py
lines 178-281) -/

/-- One row of the `timeseries` table (lines 198-209). -/
structure TSRow where
  year : ℤ
  month : ℕ
  location : String
  daily_new_cases : ℚ
  transmission_rate : Option ℚ
  vaccine_coverage : ℚ
  resource_load : Option ℚ
  date : Date
deriving DecidableEq, Repr

/-- One row of the `region_ses` table (lines 213-222). -/
structure RSRow where
  location : String
  ses : String
  season : String
  daily_new_cases : ℚ
  vaccine_coverage : ℚ
  resource_load : Option ℚ
  age : Option ℚ
  sample_size : ℕ
deriving DecidableEq, Repr

/-- One row of the `vaccine_effect` table (lines 228-240). -/
structure VERow where
  vaccination_status : Option String
  immunity_level : String
  age_group : String
  daily_new_cases : ℚ
  transmission_rate : Option ℚ
deriving DecidableEq, Repr

/-- The four KPI values of lines 244-271, in table order. -/
structure KPI where
  totalCases : ℚ
  avgVaccineCoverage : ℚ
  avgResourceLoad : ℚ
  peakSeasonCases : Option ℚ
deriving DecidableEq, Repr

/-- The returned bundle (the `analysis_tables` dict). -/
structure Tables where
  timeseries : List TSRow
  region_ses : List RSRow
  vaccine_effect : List VERow
  kpi : KPI
  raw_feature : FDF
deriving DecidableEq, Repr

/-- Column mean (`Series.mean()` on a null-free column). -/
def meanQ (l : List ℚ) : ℚ := l.sum / (l.length : ℚ)

/-- Column mean skipping nulls; null when no values remain. -/
def meanOpt (l : List (Option ℚ)) : Option ℚ :=
  let v := l.reduceOption
  if v.isEmpty then none else some (meanQ v)

/-- Lexicographic Boolean order used to model the key-sorted output of
`groupby` / `sort_values` on (year, month, location). -/
def tsKeyLe (a b : ℤ × ℕ × String) : Bool :=
  a.1 < b.1 || (a.1 == b.1 && (a.2.1 < b.2.1 ||
    (a.2.1 == b.2.1 && !(b.2.2 < a.2.2))))

/-- Key order for the region_ses table key (location, ses, season). -/
def rsKeyLe (a b : String × String × String) : Bool :=
  a.1 < b.1 || (a.1 == b.1 && (a.2.1 < b.2.1 ||
    (a.2.1 == b.2.1 && !(b.2.2 < a.2.2))))

/-- pandas sorts the categorical `age_group` key by category order, not
lexicographically. -/
def ageGroupIdx (s : String) : ℕ :=
  if s = "Child (0-18)" then 0
  else if s = "Adult (19-65)" then 1
  else if s = "Elderly (66+)" then 2
  else 3

/-- Key order for the vaccine_effect key (vaccination, immunity,
age group). -/
def veKeyLe (a b : ℤ × String × String) : Bool :=
  a.1 < b.1 || (a.1 == b.1 && (a.2.1 < b.2.1 ||
    (a.2.1 == b.2.1 && ageGroupIdx a.2.2 ≤ ageGroupIdx b.2.2)))

/-- The grouping key of the timeseries table. -/
def tsKey (r : FRec) : ℤ × ℕ × String := (r.year, r.month, r.base.location)

/-- The year/region filter of lines 184-190: an empty filter list is
falsy in Python, so it applies no restriction. -/
def filteredRows (df : FDF) (year_filter : List ℤ) (region_filter : List String) :
    List FRec :=
  let f1 := if year_filter.isEmpty then df.rows
            else df.rows.filter (fun r => year_filter.contains r.year)
  if region_filter.isEmpty then f1
  else f1.filter (fun r => region_filter.contains r.base.location)

/-- The five tables of lines 196-277, computed from the filtered rows.
`groupby` (default `sort=True`) is modelled as: sorted deduplicated
keys, one aggregate row per key over the rows of that key; rows whose
key contains a null are excluded, as pandas does. -/
def tablesFromFiltered (filtered : List FRec) (hasRU : Bool) : Tables :=
  let tsKeys := List.insertionSort (fun a b => tsKeyLe a b = true) (filtered.map tsKey).dedup
  let timeseries := tsKeys.map (fun k =>
    let g := filtered.filter (fun r => tsKey r == k)
    { year := k.1
      month := k.2.1
      location := k.2.2
      daily_new_cases := (g.map (fun r => r.base.daily_new_cases)).sum
      transmission_rate := meanOpt (g.map (fun r => r.transmission_rate))
      vaccine_coverage := meanQ (g.map (fun r => r.vaccine_coverage))
      resource_load := meanOpt (g.map (fun r => r.resource_load))
      date := ⟨k.1, k.2.1, 1⟩ })
  let rsKeys := (filtered.filterMap (fun r =>
    r.season.map (fun s => (r.base.location, r.base.ses, s)))).dedup |> List.insertionSort (fun a b => rsKeyLe a b = true)
  let region_ses := rsKeys.map (fun k =>
    let g := filtered.filter (fun r =>
      r.base.location == k.1 && r.base.ses == k.2.1 && r.season == some k.2.2)
    { location := k.1
      ses := k.2.1
      season := k.2.2
      daily_new_cases := (g.map (fun r => r.base.daily_new_cases)).sum
      vaccine_coverage := meanQ (g.map (fun r => r.vaccine_coverage))
      resource_load := meanOpt (g.map (fun r => r.resource_load))
      age := medianList (g.map (fun r => r.base.age))
      sample_size := g.length })
  let veKeys := (filtered.filterMap (fun r =>
    r.age_group.map (fun a =>
      (r.base.vaccination_status, r.base.immunity_level, a)))).dedup |> List.insertionSort (fun a b => veKeyLe a b = true)
  let vaccine_effect := veKeys.map (fun k =>
    let g := filtered.filter (fun r =>
      r.base.vaccination_status == k.1 && r.base.immunity_level == k.2.1 &&
        r.age_group == some k.2.2)
    { vaccination_status :=
        if k.1 = 0 then some "Unvaccinated"
        else if k.1 = 1 then some "Vaccinated" else none
      immunity_level := k.2.1
      age_group := k.2.2
      daily_new_cases := meanQ (g.map (fun r => r.base.daily_new_cases))
      transmission_rate := meanOpt (g.map (fun r => r.transmission_rate)) })
  let seasons := (filtered.filterMap (fun r => r.season)).dedup
  let kpi : KPI :=
    { totalCases := (filtered.map (fun r => r.base.daily_new_cases)).sum
      avgVaccineCoverage := npRound (meanQ (filtered.map (fun r => r.vaccine_coverage))) 3
      avgResourceLoad :=
        npRound (meanQ (filtered.map (fun r => r.resource_load.getD 0))) 3
      peakSeasonCases := (seasons.map (fun s =>
        ((filtered.filter (fun r => r.season == some s)).map
          (fun r => r.base.daily_new_cases)).sum)).max? }
  { timeseries := timeseries
    region_ses := region_ses
    vaccine_effect := vaccine_effect
    kpi := kpi
    raw_feature := { rows := filtered, hasRU := hasRU } }

/-- Error message of the post-filter emptiness check (line 194). -/
def filterErrMsg : String := "No data left after filtering! Adjust filter criteria"

/-- `generate_analysis_tables` (src/utils/prep.py lines 178-281). -/
def generate_analysis_tables (df : FDF) (year_filter : List ℤ)
    (region_filter : List String) : Except String Tables :=
  let filtered := filteredRows df year_filter region_filter
  if filtered.isEmpty then .error filterErrMsg
  else .ok (tablesFromFiltered filtered df.hasRU)

/-! ### Loader (`load_raw_dataset`, src/utils/io.py lines 41-93)

The file system is an input of the model: `none` means the source file
is absent, `some f` a file that parsed into header `f.columns` and
`f.nrows` data rows.  Encoding detection and CSV parsing (whose
failures are re-raised as RuntimeError) are inside that abstraction. -/

/-- The error taxonomy of the loader: `FileNotFoundError` and
`ValueError`. -/
inductive LoadError where
  | notFound (msg : String)
  | validation (msg : String)
deriving DecidableEq, Repr

/-- A parsed source file: its column headers and its row count. -/
structure RawFile where
  columns : List String
  nrows : ℕ
deriving DecidableEq, Repr

/-- `REQUIRED_FIELDS` (src/utils/io.py lines 13-24). -/
def REQUIRED_FIELDS : List String :=
  ["Date_of_Onset", "Location", "SES", "Chronic_Conditions",
   "Vaccination_Status", "Daily_New_Cases", "Hospital_Capacity",
   "Hospitalization_Requirement", "Immunity_Level", "Age"]

/-- `min_data_rows` (src/utils/io.py line 81). -/
def min_data_rows : ℕ := 500

/-- `load_raw_dataset` (src/utils/io.py lines 41-93): existence check,
header check against the ten required fields, minimum-row check, then
the parsed record set. -/
def load_raw_dataset (fs : Option RawFile) : Except LoadError RawFile :=
  match fs with
  | none => .error (.notFound "Raw dataset not found!")
  | some raw_df =>
    let missing_fields := REQUIRED_FIELDS.filter
      (fun field => !(raw_df.columns.contains field))
    if !missing_fields.isEmpty then
      .error (.validation "Missing required fields in raw dataset")
    else if raw_df.nrows < min_data_rows then
      .error (.validation "Raw dataset is too small")
    else .ok raw_df

/-! ### Object-store model of the three stages

Models pandas object identity: `.copy()` allocates a fresh object,
column assignment (`df[col] = ...`) mutates the object it is applied
to, and `df = df[mask]` / `pd.merge` rebind the local name to a fresh
object.  Each stage below replays its source lines against a store of
frame objects; the frame-effect claim is that the caller's cell is
never written. -/

/-- A stored frame object. -/
inductive DFv where
  | rawv (l : List WRec)
  | cdfv (c : CDF)
  | featv (f : FDF)
  | tabv (t : Tables)
  | unitv
deriving DecidableEq, Repr

/-- Read a cell of the store. -/
def readDF (s : List DFv) (i : ℕ) : DFv := s.getD i .unitv

/-- Overwrite a cell of the store. -/
def writeDF (s : List DFv) (i : ℕ) (v : DFv) : List DFv := s.set i v

/-- `clean_raw_data` on the store: `clean_df = raw_df.copy()` (line 15)
allocates; every later column write or rebind of `clean_df`
(lines 19-99) targets that allocation. -/
def cleanerOnStore (s : List DFv) (i : ℕ) : List DFv × ℕ :=
  let df := match readDF s i with | .rawv l => l | _ => []
  let j := s.length
  let s1 := s ++ [DFv.rawv df]
  let s2 := writeDF s1 j (.rawv (datePhase df))
  let s3 := writeDF s2 j (.rawv (catPhase (datePhase df)))
  let s4 := writeDF s3 j (.rawv (binPhase (catPhase (datePhase df))))
  (writeDF s4 j (.rawv (numPhase (binPhase (catPhase (datePhase df))))), j)

/-- `create_business_features` on the store: `feature_df =
clean_df.copy()` (line 111) allocates; the feature-column writes and
the merge rebind (lines 115-170) target that allocation. -/
def featureOnStore (s : List DFv) (i : ℕ) : List DFv × ℕ :=
  let df := match readDF s i with | .cdfv c => c | _ => ⟨[], false, false⟩
  let j := s.length
  let s1 := s ++ [DFv.cdfv df]
  (writeDF s1 j (match create_business_features df with
                 | .ok f => DFv.featv f
                 | .error _ => DFv.unitv), j)

/-- `generate_analysis_tables` on the store: `filtered_df =
feature_df.copy()` (line 184) allocates, the filter rebinds
(lines 186-189), and the bundle is a fresh object holding that
allocation as `raw_feature`. -/
def aggOnStore (s : List DFv) (i : ℕ) (year_filter : List ℤ)
    (region_filter : List String) : List DFv × ℕ :=
  let df := match readDF s i with | .featv f => f | _ => ⟨[], false⟩
  let j := s.length
  let s1 := s ++ [DFv.featv df]
  let s2 := writeDF s1 j
    (.featv { rows := filteredRows df year_filter region_filter, hasRU := df.hasRU })
  (s2 ++ [match generate_analysis_tables df year_filter region_filter with
          | .ok t => DFv.tabv t
          | .error _ => DFv.unitv], j)

/-! ### Auxiliary definitions for the claims -/

/-- The four per-field rule classes of the Cleaner. -/
inductive PhaseTag where
  | dates
  | cats
  | bins
  | nums
deriving DecidableEq, Repr

/-- The per-field rule class as a transform. -/
def runPhase : PhaseTag → List WRec → List WRec
  | .dates => datePhase
  | .cats => catPhase
  | .bins => binPhase
  | .nums => numPhase

/-- Apply the per-field rule classes in a given order. -/
def applyPhases (ts : List PhaseTag) (l : List WRec) : List WRec :=
  ts.foldl (fun acc t => runPhase t acc) l

/-- A raw row that passes every rule, with a chosen location cell and
date cell. -/
def okW (loc : RVal) (d : Option Date) : WRec :=
  { date_of_onset := d
    location := loc
    ses := .txt "High"
    immunity_level := .txt "High"
    chronic_conditions := .num 0
    vaccination_status := .num 1
    daily_new_cases := .num 5
    hospital_capacity := .num 100
    hospitalization_requirement := .num 10
    age := .num 30
    resource_utilization := none }

/-- Six raw rows: three "urban" rows with unparseable dates, one row
with a null location, two "rural" rows. -/
def phaseOrderEx : List WRec :=
  [okW (.txt "urban") none, okW (.txt "urban") none, okW (.txt "urban") none,
   okW .null (some ⟨2023, 1, 15⟩), okW (.txt "rural") (some ⟨2023, 1, 15⟩),
   okW (.txt "rural") (some ⟨2023, 1, 15⟩)]

/-- A concrete cleaned row. -/
def wCRec : CRec :=
  ⟨⟨2023, 1, 15⟩, "Urban", "High", "High", 0, 1, 5, 100, 10, 30, none⟩

/-- A concrete feature row over `wCRec`. -/
def wFRec : FRec :=
  { base := wCRec
    year := 2023
    month := 1
    season := some "Winter"
    age_group := some "Adult (19-65)"
    vaccine_coverage := 1
    resource_load := some (1 / 10)
    transmission_rate := some (12 / 10) }

/-- A concrete one-row feature frame. -/
def wFDF : FDF := ⟨[wFRec], false⟩

/-- The bundle produced from `wFDF` with filter year 2023, all regions. -/
def wTables : Tables := tablesFromFiltered (filteredRows wFDF [2023] []) wFDF.hasRU

/-- A concrete cleaned frame for the re-run scenario. -/
def idemCdf : CDF := ⟨[wCRec], false, false⟩

/-- Hand an already feature-built frame back to the Feature Builder:
its rows still carry the ten core columns and it now has a
`vaccine_coverage` column. -/
def fdfToCDF (f : FDF) : CDF := ⟨f.rows.map (fun r => r.base), f.hasRU, true⟩

/-- Whether an `Except` is a success. -/
def exceptOk : Except String α → Bool
  | .ok _ => true
  | .error _ => false

instance {ε α : Type} [DecidableEq ε] [DecidableEq α] :
    DecidableEq (Except ε α) := fun a b =>
  match a, b with
  | .ok x, .ok y =>
    if h : x = y then .isTrue (by rw [h]) else .isFalse (fun hc => h (Except.ok.inj hc))
  | .error x, .error y =>
    if h : x = y then .isTrue (by rw [h]) else .isFalse (fun hc => h (Except.error.inj hc))
  | .ok _, .error _ => .isFalse (fun hc => Except.noConfusion hc)
  | .error _, .ok _ => .isFalse (fun hc => Except.noConfusion hc)

/-- A two-row cleaned frame with one vaccinated and one unvaccinated
row in the same (year, location) group. -/
def c2Cdf : CDF := ⟨[wCRec, { wCRec with vaccination_status := 0 }], false, false⟩

/-- The Feature-Builder output on `c2Cdf`. -/
def c2Fdf : FDF := ((create_business_features c2Cdf).toOption).getD ⟨[], false⟩

/-- A cleaned frame with a `resource_utilization` column that is
non-null in the first row and null in the second. -/
def c3Cdf : CDF :=
  ⟨[{ wCRec with resource_utilization := some 50 }, wCRec], true, false⟩

/-- The Feature-Builder output on `c3Cdf`. -/
def c3Fdf : FDF := ((create_business_features c3Cdf).toOption).getD ⟨[], false⟩

/-- The first output row of `c3Fdf` (the row with a non-null
utilization cell). -/
def c3Row : FRec := c3Fdf.rows.getD 0 ⟨wCRec, 0, 0, none, none, 0, none, none⟩

/-- A one-row valid raw frame. -/
def wRaw : List WRec := [okW (.txt "urban") (some ⟨2023, 1, 15⟩)]

/-- The Cleaner's output on `wRaw`. -/
def wClean : List WRec := (clean_raw_data wRaw).toOption.getD []

/-- A raw row whose vaccination cell holds the number `q`, valid in
every other field. -/
def rqRow (q : ℚ) : WRec :=
  { okW (.txt "Urban") (some ⟨2023, 1, 15⟩) with vaccination_status := .num q }

/-- The cleaned row produced from `rqRow q` when the truncated
vaccination value `z` is kept. -/
def c6Cleaned (z : ℤ) : WRec :=
  { date_of_onset := some ⟨2023, 1, 15⟩
    location := .txt "Urban"
    ses := .txt "High"
    immunity_level := .txt "High"
    chronic_conditions := .num 0
    vaccination_status := .num (z : ℚ)
    daily_new_cases := .num 5
    hospital_capacity := .num 100
    hospitalization_requirement := .num 10
    age := .num 30
    resource_utilization := none }

/-- A file missing most required headers. -/
def wFileMissing : RawFile := ⟨["Age"], 600⟩

/-- A file with all headers but too few rows. -/
def wFileSmall : RawFile := ⟨REQUIRED_FIELDS, 10⟩

/-- A file passing every check. -/
def wFileOk : RawFile := ⟨REQUIRED_FIELDS, 600⟩

/-! ## Theorems -/

/-- C8: the Loader fails with a NotFound error when the source file is
absent, with a Validation error when any of the ten required column
headers is missing, with a Validation error when the row count is below
500, and otherwise returns the parsed record set. -/
theorem loader_error_taxonomy (fs : Option RawFile) :
    (fs = none →
      load_raw_dataset fs = .error (.notFound "Raw dataset not found!")) ∧
    (∀ f, fs = some f →
      (REQUIRED_FIELDS.filter (fun field => !(f.columns.contains field)) ≠ [] →
        load_raw_dataset fs =
          .error (.validation "Missing required fields in raw dataset")) ∧
      (REQUIRED_FIELDS.filter (fun field => !(f.columns.contains field)) = [] →
        f.nrows < min_data_rows →
        load_raw_dataset fs = .error (.validation "Raw dataset is too small")) ∧
      (REQUIRED_FIELDS.filter (fun field => !(f.columns.contains field)) = [] →
        min_data_rows ≤ f.nrows →
        load_raw_dataset fs = .ok f)) := by
  refine ⟨?_, ?_⟩
  · rintro rfl; rfl
  · rintro f rfl
    refine ⟨fun hm => ?_, fun hm hr => ?_, fun hm hr => ?_⟩
    · have hmem : ¬∀ x ∈ REQUIRED_FIELDS, x ∈ f.columns := by simpa using hm
      simp [load_raw_dataset, hmem]
    · have hmem : ∀ x ∈ REQUIRED_FIELDS, x ∈ f.columns := by simpa using hm
      simp [load_raw_dataset, hr]
      exact hmem
    · have hmem : ∀ x ∈ REQUIRED_FIELDS, x ∈ f.columns := by simpa using hm
      simp [load_raw_dataset, Nat.not_lt.mpr hr]
      exact hmem

/-- Witness for `loader_error_taxonomy` at concrete files. -/
theorem loader_error_taxonomy_witness :
    load_raw_dataset none = .error (.notFound "Raw dataset not found!") ∧
    load_raw_dataset (some wFileMissing) =
      .error (.validation "Missing required fields in raw dataset") ∧
    load_raw_dataset (some wFileSmall) =
      .error (.validation "Raw dataset is too small") ∧
    load_raw_dataset (some wFileOk) = .ok wFileOk :=
  ⟨(loader_error_taxonomy none).1 rfl,
   ((loader_error_taxonomy (some wFileMissing)).2 wFileMissing rfl).1 (by decide),
   ((loader_error_taxonomy (some wFileSmall)).2 wFileSmall rfl).2.1 (by decide) (by decide),
   ((loader_error_taxonomy (some wFileOk)).2 wFileOk rfl).2.2 (by decide) (by decide)⟩

/-- C10: each pipeline stage copies its input frame before
transforming; on the object store, the caller's cell `i` holds the same
frame after the stage as before. -/
theorem stages_preserve_input (s : List DFv) (i : ℕ) (year_filter : List ℤ)
    (region_filter : List String) (h : i < s.length) :
    readDF (cleanerOnStore s i).1 i = readDF s i ∧
    readDF (featureOnStore s i).1 i = readDF s i ∧
    readDF (aggOnStore s i year_filter region_filter).1 i = readDF s i := by
  have hne : ∀ k : ℕ, s.length ≤ k → i ≠ k := fun k hk => Nat.ne_of_lt (lt_of_lt_of_le h hk)
  have happ : ∀ (l : List DFv) (v : DFv), i < l.length →
      readDF (l ++ [v]) i = readDF l i := by
    intro l v hl
    simp [readDF, List.getD_eq_getElem?_getD, List.getElem?_append_left hl]
  have hset : ∀ (l : List DFv) (k : ℕ) (v : DFv), i ≠ k →
      readDF (writeDF l k v) i = readDF l i := by
    intro l k v hik
    simp [readDF, writeDF, List.getD_eq_getElem?_getD,
      List.getElem?_set_ne (Ne.symm hik)]
  refine ⟨?_, ?_, ?_⟩
  · show readDF (writeDF (writeDF (writeDF (writeDF (s ++ [_]) _ _) _ _) _ _) _ _) i = _
    rw [hset _ _ _ (hne _ (by simp)), hset _ _ _ (hne _ (by simp)),
      hset _ _ _ (hne _ (by simp)), hset _ _ _ (hne _ (by simp)), happ _ _ h]
  · show readDF (writeDF (s ++ [_]) _ _) i = _
    rw [hset _ _ _ (hne _ (by simp)), happ _ _ h]
  · show readDF (writeDF (s ++ [_]) _ _ ++ [_]) i = _
    rw [happ _ _ (by simp [writeDF]; omega), hset _ _ _ (hne _ (by simp)), happ _ _ h]

/-- Witness for `stages_preserve_input` at a concrete one-cell store. -/
theorem stages_preserve_input_witness :
    readDF (cleanerOnStore [DFv.unitv] 0).1 0 = readDF [DFv.unitv] 0 ∧
    readDF (featureOnStore [DFv.unitv] 0).1 0 = readDF [DFv.unitv] 0 ∧
    readDF (aggOnStore [DFv.unitv] 0 [] []).1 0 = readDF [DFv.unitv] 0 :=
  stages_preserve_input [DFv.unitv] 0 [] [] (by decide)

/-- C7: when the year/region set-membership filtering leaves no rows
the Aggregator raises a Validation error; otherwise it returns the four
derived tables plus the filtered feature set together as one bundle. -/
theorem aggregator_empty_filter (df : FDF) (year_filter : List ℤ)
    (region_filter : List String) :
    (filteredRows df year_filter region_filter = [] →
      generate_analysis_tables df year_filter region_filter = .error filterErrMsg) ∧
    (filteredRows df year_filter region_filter ≠ [] →
      generate_analysis_tables df year_filter region_filter =
        .ok (tablesFromFiltered (filteredRows df year_filter region_filter) df.hasRU) ∧
      (tablesFromFiltered (filteredRows df year_filter region_filter)
        df.hasRU).raw_feature.rows = filteredRows df year_filter region_filter) := by
  refine ⟨fun he => ?_, fun hne => ⟨?_, rfl⟩⟩
  · simp [generate_analysis_tables, he]
  · simp [generate_analysis_tables, List.isEmpty_iff, hne]

/-- Witness for `aggregator_empty_filter`: a 2023-only frame filtered
by year 2025 errors, filtered by year 2023 yields the bundle. -/
theorem aggregator_empty_filter_witness :
    generate_analysis_tables wFDF [2025] [] = .error filterErrMsg ∧
    generate_analysis_tables wFDF [2023] [] =
      .ok (tablesFromFiltered (filteredRows wFDF [2023] []) wFDF.hasRU) :=
  ⟨(aggregator_empty_filter wFDF [2025] []).1 (by decide),
   ((aggregator_empty_filter wFDF [2023] []).2 (by decide)).1⟩

/-- C9 (amended): the Cleaner applies its per-field rule classes in the
fixed order dates → categoricals → binaries → numerics after field-name
normalization; the classes are not order-independent. -/
theorem cleaner_fixed_phase_order (l : List WRec) :
    clean_raw_data l =
      (let r := applyPhases [.dates, .cats, .bins, .nums] l
       if r.isEmpty then .error cleanErrMsg else .ok r) := by
  show clean_raw_data l =
    (if (applyPhases [.dates, .cats, .bins, .nums] l).isEmpty
     then .error cleanErrMsg
     else .ok (applyPhases [.dates, .cats, .bins, .nums] l))
  have h : applyPhases [.dates, .cats, .bins, .nums] l
      = numPhase (binPhase (catPhase (datePhase l))) := by
    simp only [applyPhases, List.foldl, runPhase]
  rw [h]
  simp only [clean_raw_data]

set_option maxHeartbeats 4000000 in
set_option maxRecDepth 8000 in
/-- C9 counterexample: running the categorical mode-fill before the
date repair changes the cleaned record set, because the mode is
computed over rows the date rule would have dropped. -/
theorem phase_order_counterexample :
    applyPhases [.cats, .dates, .bins, .nums] phaseOrderEx ≠
      applyPhases [.dates, .cats, .bins, .nums] phaseOrderEx := by
  with_unfolding_all decide

/-- Helper: filtering an already filtered row set with the same filters
changes nothing. -/
theorem filteredRows_idem (df : FDF) (year_filter : List ℤ)
    (region_filter : List String) (b : Bool) :
    filteredRows ⟨filteredRows df year_filter region_filter, b⟩
      year_filter region_filter = filteredRows df year_filter region_filter := by
  have hself : ∀ (l : List FRec) (p : FRec → Bool), (l.filter p).filter p = l.filter p :=
    fun l p => List.filter_eq_self.mpr fun a ha => List.of_mem_filter ha
  have hsub : ∀ (l : List FRec) (p q : FRec → Bool),
      ((l.filter p).filter q).filter p = (l.filter p).filter q :=
    fun l p q => List.filter_eq_self.mpr fun a ha =>
      List.of_mem_filter (List.mem_of_mem_filter ha)
  unfold filteredRows
  cases hy : year_filter.isEmpty <;> cases hr : region_filter.isEmpty <;>
      simp only [hy, hr, Bool.false_eq_true, if_false, if_true]
  · rw [hsub]
    exact hsub _ _ _
  · exact hself _ _
  · exact hself _ _

/-- C5 (amended): the Aggregator is idempotent on its own output — re-
running it on the bundle's filtered feature set with the same filters
returns the identical bundle. -/
theorem aggregator_idempotent (df : FDF) (year_filter : List ℤ)
    (region_filter : List String) (t : Tables)
    (h : generate_analysis_tables df year_filter region_filter = .ok t) :
    generate_analysis_tables t.raw_feature year_filter region_filter = .ok t := by
  simp only [generate_analysis_tables] at h ⊢
  by_cases he : (filteredRows df year_filter region_filter).isEmpty
  · rw [if_pos he] at h
    exact absurd h (by simp)
  · rw [if_neg he] at h
    obtain rfl : tablesFromFiltered (filteredRows df year_filter region_filter) df.hasRU = t :=
      Except.ok.inj h
    have hraw : (tablesFromFiltered (filteredRows df year_filter region_filter)
        df.hasRU).raw_feature = ⟨filteredRows df year_filter region_filter, df.hasRU⟩ := rfl
    rw [hraw, filteredRows_idem df year_filter region_filter df.hasRU, if_neg he]

set_option maxHeartbeats 4000000 in
set_option maxRecDepth 8000 in
/-- Witness for `aggregator_idempotent` on the concrete bundle
`wTables`. -/
theorem aggregator_idempotent_witness :
    generate_analysis_tables wTables.raw_feature [2023] [] = .ok wTables :=
  aggregator_idempotent wFDF [2023] [] wTables (by with_unfolding_all decide)

set_option maxHeartbeats 4000000 in
set_option maxRecDepth 8000 in
/-- C5 counterexample: on an already cleaned frame the first
Feature-Builder + Aggregator run succeeds, but re-running the Feature
Builder on the already feature-built frame fails with the duplicated
`vaccine_coverage` column of the merge, so the second run yields no
tables at all instead of identical ones. -/
theorem rerun_counterexample :
    exceptOk ((create_business_features idemCdf).bind (fun f1 =>
      generate_analysis_tables f1 [2023] ["Urban"])) = true ∧
    ((create_business_features idemCdf).bind (fun f1 =>
      (create_business_features (fdfToCDF f1)).bind (fun f2 =>
        generate_analysis_tables f2 [2023] ["Urban"]))) =
      .error "KeyError: vaccine_coverage" := by with_unfolding_all decide

/-- C2: every output row's `vaccine_coverage` equals the count of
vaccinated rows of its (year, location) group divided by the group
size, rounded to 3 decimals, and all rows of one group share it. -/
theorem coverage_groupwise (df : CDF) (fdf : FDF)
    (h : create_business_features df = .ok fdf) :
    (∀ r ∈ fdf.rows, r.vaccine_coverage =
      npRound
        ((fdf.rows.countP (fun s => s.year == r.year &&
            s.base.location == r.base.location &&
            s.base.vaccination_status == 1) : ℚ) /
         (fdf.rows.countP (fun s => s.year == r.year &&
            s.base.location == r.base.location) : ℚ)) 3) ∧
    (∀ r1 ∈ fdf.rows, ∀ r2 ∈ fdf.rows,
      r1.year = r2.year → r1.base.location = r2.base.location →
      r1.vaccine_coverage = r2.vaccine_coverage) := by
  by_cases hvc : df.hasVC
  · simp [create_business_features, hvc] at h
  · simp only [create_business_features, hvc, Bool.false_eq_true, if_false,
      Except.ok.injEq] at h
    subst h
    constructor
    · rintro r' hr'
      simp only [List.mem_map] at hr'
      obtain ⟨r, hr, rfl⟩ := hr'
      rw [List.countP_map, List.countP_map]
      show npRound (coverageFor df.rows r.date_of_onset.year r.location) 3 =
        npRound
          ((df.rows.countP (fun s => s.date_of_onset.year == r.date_of_onset.year &&
              s.location == r.location && s.vaccination_status == 1) : ℚ) /
           (df.rows.countP (fun s => s.date_of_onset.year == r.date_of_onset.year &&
              s.location == r.location) : ℚ)) 3
      have hmem : r ∈ df.rows.filter (fun s =>
          s.date_of_onset.year == r.date_of_onset.year &&
          s.location == r.location) := by
        rw [List.mem_filter]
        exact ⟨hr, by simp⟩
      have hlen : (df.rows.filter (fun s =>
          s.date_of_onset.year == r.date_of_onset.year &&
          s.location == r.location)).length ≠ 0 := by
        intro hc
        rw [List.length_eq_zero] at hc
        rw [hc] at hmem
        exact List.not_mem_nil r hmem
      simp only [coverageFor]
      rw [if_neg hlen]
      have hc1 : (df.rows.filter (fun s =>
          s.date_of_onset.year == r.date_of_onset.year &&
          s.location == r.location)).countP
            (fun s => s.vaccination_status == 1)
          = df.rows.countP (fun s =>
              s.date_of_onset.year == r.date_of_onset.year &&
              s.location == r.location && s.vaccination_status == 1) := by
        rw [List.countP_filter]
        refine List.countP_congr fun s _ => ?_
        cases hy : (s.date_of_onset.year == r.date_of_onset.year) <;>
          cases hl : (s.location == r.location) <;>
          cases hv : (s.vaccination_status == (1 : ℤ)) <;> simp [hy, hl, hv]
      have hc2 : (df.rows.filter (fun s =>
          s.date_of_onset.year == r.date_of_onset.year &&
          s.location == r.location)).length
          = df.rows.countP (fun s =>
              s.date_of_onset.year == r.date_of_onset.year &&
              s.location == r.location) := by
        rw [List.countP_eq_length_filter]
      rw [hc1, hc2]
    · rintro r1' hr1' r2' hr2' hy hl
      simp only [List.mem_map] at hr1' hr2'
      obtain ⟨r1, hr1, rfl⟩ := hr1'
      obtain ⟨r2, hr2, rfl⟩ := hr2'
      show npRound (coverageFor df.rows r1.date_of_onset.year r1.location) 3 =
        npRound (coverageFor df.rows r2.date_of_onset.year r2.location) 3
      rw [show r1.date_of_onset.year = r2.date_of_onset.year from hy,
        show r1.location = r2.location from hl]

set_option maxHeartbeats 4000000 in
set_option maxRecDepth 8000 in
/-- Witness for `coverage_groupwise` on the two-row frame `c2Cdf`. -/
theorem coverage_groupwise_witness :
    (∀ r ∈ c2Fdf.rows, r.vaccine_coverage =
      npRound
        ((c2Fdf.rows.countP (fun s => s.year == r.year &&
            s.base.location == r.base.location &&
            s.base.vaccination_status == 1) : ℚ) /
         (c2Fdf.rows.countP (fun s => s.year == r.year &&
            s.base.location == r.base.location) : ℚ)) 3) ∧
    (∀ r1 ∈ c2Fdf.rows, ∀ r2 ∈ c2Fdf.rows,
      r1.year = r2.year → r1.base.location = r2.base.location →
      r1.vaccine_coverage = r2.vaccine_coverage) :=
  coverage_groupwise c2Cdf c2Fdf (by with_unfolding_all decide)

/-- Round-half-to-even stays between floor and ceiling. -/
theorem roundHalfEven_bounds (q : ℚ) :
    ⌊q⌋ ≤ roundHalfEven q ∧ roundHalfEven q ≤ ⌈q⌉ := by
  have hfl : (⌊q⌋ : ℚ) ≤ q := Int.floor_le q
  have hfc : ⌊q⌋ ≤ ⌈q⌉ := Int.floor_le_ceil q
  have hup : 0 < q - (⌊q⌋ : ℚ) → ⌊q⌋ + 1 ≤ ⌈q⌉ := by
    intro hpos
    have h1 : (⌊q⌋ : ℚ) < q := by linarith
    have h2 : (⌊q⌋ : ℚ) < (⌈q⌉ : ℚ) := lt_of_lt_of_le h1 (Int.le_ceil q)
    have := Int.cast_lt.mp h2
    omega
  simp only [roundHalfEven]
  split_ifs with h1 h2 h3
  · exact ⟨le_refl _, hfc⟩
  · exact ⟨by omega, hup (by linarith)⟩
  · exact ⟨le_refl _, hfc⟩
  · exact ⟨by omega, hup (by linarith)⟩

/-- `np.round` of a non-negative value is non-negative. -/
theorem npRound_nonneg (q : ℚ) (d : ℕ) (h : 0 ≤ q) : 0 ≤ npRound q d := by
  have h1 : 0 ≤ ⌊q * 10 ^ d⌋ := Int.floor_nonneg.mpr (by positivity)
  have h2 := (roundHalfEven_bounds (q * 10 ^ d)).1
  have h3 : (0 : ℚ) ≤ (roundHalfEven (q * 10 ^ d) : ℚ) := by exact_mod_cast le_trans h1 h2
  unfold npRound
  positivity

/-- `np.round` never exceeds an integer bound of its argument. -/
theorem npRound_le_of_le (q : ℚ) (d : ℕ) (n : ℤ) (h : q ≤ (n : ℚ)) :
    npRound q d ≤ (n : ℚ) := by
  have h1 : roundHalfEven (q * 10 ^ d) ≤ ⌈q * 10 ^ d⌉ :=
    (roundHalfEven_bounds (q * 10 ^ d)).2
  have h2 : ⌈q * 10 ^ d⌉ ≤ n * 10 ^ d := by
    calc ⌈q * 10 ^ d⌉ ≤ ⌈(n : ℚ) * 10 ^ d⌉ := by
          refine Int.ceil_le_ceil ?_
          have hd : (0 : ℚ) < 10 ^ d := by positivity
          exact mul_le_mul_of_nonneg_right h (le_of_lt hd)
      _ = n * 10 ^ d := by
          rw [show ((n : ℚ) * 10 ^ d) = ((n * 10 ^ d : ℤ) : ℚ) by push_cast; ring]
          exact Int.ceil_intCast _
  have h3 : (roundHalfEven (q * 10 ^ d) : ℚ) ≤ (n : ℚ) * 10 ^ d := by
    have : (roundHalfEven (q * 10 ^ d) : ℚ) ≤ ((n * 10 ^ d : ℤ) : ℚ) := by
      exact_mod_cast le_trans h1 h2
    calc (roundHalfEven (q * 10 ^ d) : ℚ) ≤ ((n * 10 ^ d : ℤ) : ℚ) := this
      _ = (n : ℚ) * 10 ^ d := by push_cast; ring
  unfold npRound
  rw [div_le_iff (by positivity)]
  linarith

/-- C3 (amended): given cleaned input, every row's `resource_load`
either lies within [0, 5], or is null — the latter exactly when the
utilization branch was taken and that row's own `resource_utilization`
cell is null. -/
theorem resource_load_in_range (df : CDF) (fdf : FDF)
    (hreq : ∀ r ∈ df.rows, 0 ≤ r.hospitalization_requirement)
    (h : create_business_features df = .ok fdf) :
    ∀ r ∈ fdf.rows,
      (∀ v, r.resource_load = some v → 0 ≤ v ∧ v ≤ 5) ∧
      (r.resource_load = none →
        df.hasRU = true ∧ r.base.resource_utilization = none) := by
  by_cases hvc : df.hasVC
  · simp [create_business_features, hvc] at h
  · simp only [create_business_features, hvc, Bool.false_eq_true, if_false,
      Except.ok.injEq] at h
    subst h
    rintro r' hr'
    simp only [List.mem_map] at hr'
    obtain ⟨r, hr, rfl⟩ := hr'
    by_cases hru : (df.hasRU && !(df.rows.all (fun s => s.resource_utilization == none))) = true
    · cases hu : r.resource_utilization with
      | none =>
        constructor
        · intro v hv
          simp only [hru, if_true, hu, Option.map_none'] at hv
          exact absurd hv (by simp)
        · intro _
          refine ⟨?_, rfl⟩
          cases hh : df.hasRU
          · rw [hh] at hru
            simp at hru
          · rfl
      | some u =>
        constructor
        · intro v hv
          simp only [hru, if_true, hu, Option.map_some'] at hv
          obtain rfl := (Option.some.inj hv).symm
          have hx0 : (0 : ℚ) ≤ max 0 (min (u / 100) 5) := le_max_left 0 _
          have hx5 : max 0 (min (u / 100) 5) ≤ 5 :=
            max_le (by norm_num) (min_le_right _ _)
          have hr0 : 0 ≤ npRound (max 0 (min (u / 100) 5)) 3 :=
            npRound_nonneg _ 3 hx0
          have hr5 : npRound (max 0 (min (u / 100) 5)) 3 ≤ 5 := by
            have := npRound_le_of_le (max 0 (min (u / 100) 5)) 3 5 (by exact_mod_cast hx5)
            exact_mod_cast this
          exact ⟨le_min hr0 (by norm_num), min_le_right _ _⟩
        · intro hv
          simp only [hru, if_true, hu, Option.map_some'] at hv
          exact absurd hv (by simp)
    · constructor
      · intro v hv
        simp only [hru, if_false, Bool.false_eq_true, Option.map_some'] at hv
        obtain rfl := (Option.some.inj hv).symm
        have hy0 : (0 : ℚ) ≤ (if 0 < r.hospital_capacity
            then r.hospitalization_requirement / r.hospital_capacity else 0) := by
          split_ifs with hcap
          · exact div_nonneg (hreq r hr) (le_of_lt hcap)
          · exact le_refl 0
        have hr0 : 0 ≤ npRound (if 0 < r.hospital_capacity
            then r.hospitalization_requirement / r.hospital_capacity else 0) 3 :=
          npRound_nonneg _ 3 hy0
        exact ⟨le_min hr0 (by norm_num), min_le_right _ _⟩
      · intro hv
        simp only [hru, if_false, Bool.false_eq_true, Option.map_some'] at hv
        exact absurd hv (by simp)

set_option maxHeartbeats 4000000 in
set_option maxRecDepth 8000 in
/-- C3 counterexample: on a cleaned frame whose `resource_utilization`
column is present and not entirely null, the row with a null
utilization cell gets a null `resource_load`, not a value in [0, 5]. -/
theorem resource_load_counterexample :
    (create_business_features c3Cdf).map (fun f => f.rows.map
      (fun r => r.resource_load)) = .ok [some (1 / 2), none] := by
  with_unfolding_all decide

set_option maxHeartbeats 4000000 in
set_option maxRecDepth 8000 in
/-- Witness for `resource_load_in_range` on the concrete frame
`c3Cdf`. -/
theorem resource_load_in_range_witness :
    (∀ v, c3Row.resource_load = some v → 0 ≤ v ∧ v ≤ 5) ∧
    (c3Row.resource_load = none →
      c3Cdf.hasRU = true ∧ c3Row.base.resource_utilization = none) :=
  resource_load_in_range c3Cdf c3Fdf (by with_unfolding_all decide)
    (by with_unfolding_all decide) c3Row (by with_unfolding_all decide)

/-- Splitting a sum over a list by a Boolean predicate. -/
theorem sum_map_filter_split {α : Type} (l : List α) (p : α → Bool) (g : α → ℚ) :
    ((l.filter p).map g).sum + ((l.filter (fun a => !p a)).map g).sum
      = (l.map g).sum := by
  induction l with
  | nil => simp
  | cons a as ih =>
    cases hpa : p a <;> simp [List.filter_cons, hpa] <;> linarith [ih]

/-- Summing group sums over a complete, duplicate-free key list gives
the total sum. -/
theorem sum_fiberwise {α κ : Type} [BEq κ] [LawfulBEq κ] (keys : List κ) (l : List α)
    (f : α → κ) (g : α → ℚ) (hk : keys.Nodup) (hc : ∀ a ∈ l, f a ∈ keys) :
    (keys.map (fun k => ((l.filter (fun a => f a == k)).map g).sum)).sum
      = (l.map g).sum := by
  induction keys generalizing l with
  | nil =>
    have hl : l = [] := by
      cases l with
      | nil => rfl
      | cons b bs => exact absurd (hc b (List.mem_cons_self b bs)) (List.not_mem_nil _)
    subst hl
    simp
  | cons k ks ih =>
    obtain ⟨hknot, hksn⟩ := List.nodup_cons.mp hk
    have hmap : ks.map (fun k' => ((l.filter (fun a => f a == k')).map g).sum)
        = ks.map (fun k' =>
            (((l.filter (fun a => !(f a == k))).filter (fun a => f a == k')).map g).sum) := by
      refine List.map_congr_left fun k' hk' => ?_
      have hfl : (l.filter (fun a => !(f a == k))).filter (fun a => f a == k')
          = l.filter (fun a => f a == k') := by
        rw [List.filter_filter]
        refine List.filter_congr fun a _ => ?_
        cases hak : (f a == k')
        · simp
        · have : f a = k' := by exact_mod_cast eq_of_beq hak
          have hne : (f a == k) = false := by
            refine beq_eq_false_iff_ne.mpr ?_
            rw [this]
            intro hcon
            exact hknot (hcon ▸ hk')
          simp [hne]
      rw [hfl]
    have hrest := ih (l.filter (fun a => !(f a == k))) hksn (by
      intro a ha
      have hmem := List.mem_of_mem_filter ha
      have hpred := List.of_mem_filter ha
      have := hc a hmem
      rcases List.mem_cons.mp this with heq | hmem2
      · exfalso
        rw [heq] at hpred
        simp at hpred
      · exact hmem2)
    have hsplit := sum_map_filter_split l (fun a => f a == k) g
    simp only [List.map_cons, List.sum_cons]
    rw [hmap, hrest]
    linarith

/-- The cross-table identity on the bundle builder itself. -/
theorem tables_total_eq (filtered : List FRec) (b : Bool) :
    (tablesFromFiltered filtered b).kpi.totalCases
      = ((tablesFromFiltered filtered b).timeseries.map
          (fun row => row.daily_new_cases)).sum := by
  show (filtered.map (fun r => r.base.daily_new_cases)).sum = _
  have h1 : (tablesFromFiltered filtered b).timeseries
      = (List.insertionSort (fun a b => tsKeyLe a b = true)
          (filtered.map tsKey).dedup).map (fun k =>
        let g := filtered.filter (fun r => tsKey r == k)
        { year := k.1
          month := k.2.1
          location := k.2.2
          daily_new_cases := (g.map (fun r => r.base.daily_new_cases)).sum
          transmission_rate := meanOpt (g.map (fun r => r.transmission_rate))
          vaccine_coverage := meanQ (g.map (fun r => r.vaccine_coverage))
          resource_load := meanOpt (g.map (fun r => r.resource_load))
          date := ⟨k.1, k.2.1, 1⟩ }) := rfl
  rw [h1, List.map_map]
  have h2 : ((fun row : TSRow => row.daily_new_cases) ∘ (fun k : ℤ × ℕ × String =>
      let g := filtered.filter (fun r => tsKey r == k)
      ({ year := k.1
         month := k.2.1
         location := k.2.2
         daily_new_cases := (g.map (fun r => r.base.daily_new_cases)).sum
         transmission_rate := meanOpt (g.map (fun r => r.transmission_rate))
         vaccine_coverage := meanQ (g.map (fun r => r.vaccine_coverage))
         resource_load := meanOpt (g.map (fun r => r.resource_load))
         date := ⟨k.1, k.2.1, 1⟩ } : TSRow)))
      = fun k => ((filtered.filter (fun r => tsKey r == k)).map
          (fun r => r.base.daily_new_cases)).sum := rfl
  rw [h2]
  rw [((List.perm_insertionSort (fun a b => tsKeyLe a b = true)
      (filtered.map tsKey).dedup).map
      (fun k => ((filtered.filter (fun r => tsKey r == k)).map
        (fun r => r.base.daily_new_cases)).sum)).sum_eq]
  exact (sum_fiberwise _ _ tsKey _ (List.nodup_dedup _)
    (fun a ha => List.mem_dedup.mpr (List.mem_map_of_mem tsKey ha))).symm

/-- C4: the KPI table's total-cases value equals the sum over the
timeseries table of its summed daily-cases column, both computed from
the same filtered slice. -/
theorem kpi_total_consistent (df : FDF) (year_filter : List ℤ)
    (region_filter : List String) (t : Tables)
    (h : generate_analysis_tables df year_filter region_filter = .ok t) :
    t.kpi.totalCases = (t.timeseries.map (fun row => row.daily_new_cases)).sum := by
  simp only [generate_analysis_tables] at h
  by_cases he : (filteredRows df year_filter region_filter).isEmpty
  · rw [if_pos he] at h
    exact absurd h (by simp)
  · rw [if_neg he] at h
    obtain rfl : tablesFromFiltered (filteredRows df year_filter region_filter) df.hasRU = t :=
      Except.ok.inj h
    exact tables_total_eq _ _

set_option maxHeartbeats 4000000 in
set_option maxRecDepth 8000 in
/-- Witness for `kpi_total_consistent` on the concrete bundle
`wTables`. -/
theorem kpi_total_consistent_witness :
    wTables.kpi.totalCases =
      (wTables.timeseries.map (fun row => row.daily_new_cases)).sum :=
  kpi_total_consistent wFDF [2023] [] wTables (by with_unfolding_all decide)

/-- Facts about a survivor of a categorical step: it comes from an
input row, its field is now text, and every field the step does not
write is carried over. -/
theorem catStepOn_facts (get : WRec → RVal) (set : WRec → RVal → WRec)
    (hgs : ∀ r v, get (set r v) = v)
    (l : List WRec) (r : WRec) (hr : r ∈ catStepOn get set l) :
    ∃ r₀ ∈ l, (∃ s : String, get r = RVal.txt s) ∧
      ∀ {β : Type} (g : WRec → β), (∀ x v, g (set x v) = g x) → g r = g r₀ := by
  simp only [catStepOn, List.mem_map] at hr
  obtain ⟨r1, ⟨r₀, hr₀, rfl⟩, rfl⟩ := hr
  refine ⟨r₀, hr₀, ?_, ?_⟩
  · by_cases hnull : catTransform (get r₀) = RVal.null
    · rw [hgs, if_pos hnull, hgs]
      exact ⟨_, rfl⟩
    · rw [hgs, if_neg hnull, hgs]
      cases h : get r₀ with
      | txt s => exact ⟨(strTitle s).trim, by rw [catTransform]⟩
      | num q => rw [h] at hnull; exact absurd rfl hnull
      | null => rw [h] at hnull; exact absurd rfl hnull
  · intro β g hg
    by_cases hnull : catTransform (get r₀) = RVal.null
    · rw [hgs, if_pos hnull, hg, hg]
    · rw [hgs, if_neg hnull, hg]

/-- Facts about a survivor of a binary step: it comes from an input
row, its field is a whole number 0 or 1, and the other fields are
carried over. -/
theorem binStepOn_facts (get : WRec → RVal) (set : WRec → RVal → WRec)
    (hgs : ∀ r v, get (set r v) = v)
    (l : List WRec) (r : WRec) (hr : r ∈ binStepOn get set l) :
    ∃ r₀ ∈ l, (∃ z : ℤ, get r = RVal.num (z : ℚ) ∧ (z = 0 ∨ z = 1)) ∧
      ∀ {β : Type} (g : WRec → β), (∀ x v, g (set x v) = g x) → g r = g r₀ := by
  simp only [binStepOn, List.mem_filter, List.mem_map] at hr
  obtain ⟨⟨r₀, hr₀, rfl⟩, hpred⟩ := hr
  rw [hgs] at hpred
  rw [Bool.or_eq_true] at hpred
  refine ⟨r₀, hr₀, ⟨truncToInt ((toNumericQ (get r₀)).getD 0), hgs _ _, ?_⟩,
    fun g hg => hg _ _⟩
  rcases hpred with h | h
  · exact Or.inl (Int.cast_eq_zero.mp (RVal.num.inj (eq_of_beq h)))
  · exact Or.inr (Int.cast_eq_one.mp (RVal.num.inj (eq_of_beq h)))

/-- Facts about a survivor of a numeric step: it comes from an input
row, its field is a number accepted by the step's outlier rule, and the
other fields are carried over. -/
theorem numStepOn_facts (get : WRec → RVal) (set : WRec → RVal → WRec)
    (defaultVal : ℚ) (keep : ℚ → Bool)
    (hgs : ∀ r v, get (set r v) = v)
    (l : List WRec) (r : WRec) (hr : r ∈ numStepOn get set defaultVal keep l) :
    ∃ r₀ ∈ l, (∃ q : ℚ, get r = RVal.num q ∧ keep q = true) ∧
      ∀ {β : Type} (g : WRec → β), (∀ x v, g (set x v) = g x) → g r = g r₀ := by
  simp only [numStepOn, List.mem_filter, List.mem_map] at hr
  obtain ⟨⟨r1, ⟨r₀, hr₀, rfl⟩, rfl⟩, hpred⟩ := hr
  cases hto : toNumericQ (get r₀) with
  | none =>
    rw [hto] at hpred
    simp only [Option.map_none', Option.getD_none, hgs, if_true] at hpred ⊢
    simp only [toNumericQ, Option.map_some', Option.getD_some] at hpred
    exact ⟨r₀, hr₀, ⟨_, rfl, hpred⟩, fun g hg => by rw [hg, hg]⟩
  | some q =>
    rw [hto] at hpred
    simp only [Option.map_some', Option.getD_some, hgs] at hpred ⊢
    rw [if_neg (show ¬(RVal.num q = RVal.null) by simp)] at hpred
    rw [if_neg (show ¬(RVal.num q = RVal.null) by simp)]
    simp only [hgs, toNumericQ, Option.map_some', Option.getD_some] at hpred
    exact ⟨r₀, hr₀, ⟨q, hgs _ _, hpred⟩, fun g hg => hg _ _⟩

/-- C1: the Cleaner never returns an empty result (it raises instead),
and every cleaned record has all ten core fields non-null, binary
fields in {0, 1}, age in [0, 120], non-negative cases and positive
capacity and requirement. -/
theorem cleaner_invariants (l : List WRec) (out : List WRec)
    (h : clean_raw_data l = .ok out) :
    out ≠ [] ∧ ∀ r ∈ out, ∃ c : CRec, toCRec r = some c ∧
      (c.chronic_conditions = 0 ∨ c.chronic_conditions = 1) ∧
      (c.vaccination_status = 0 ∨ c.vaccination_status = 1) ∧
      0 ≤ c.age ∧ c.age ≤ 120 ∧ 0 ≤ c.daily_new_cases ∧
      0 < c.hospital_capacity ∧ 0 < c.hospitalization_requirement := by
  simp only [clean_raw_data] at h
  by_cases he : (numPhase (binPhase (catPhase (datePhase l)))).isEmpty
  · rw [if_pos he] at h
    exact absurd h (by simp)
  · rw [if_neg he] at h
    obtain rfl : numPhase (binPhase (catPhase (datePhase l))) = out := Except.ok.inj h
    refine ⟨by simpa [List.isEmpty_iff] using he, ?_⟩
    intro r hr
    simp only [numPhase] at hr
    obtain ⟨r4, hr4, ⟨qa, e_age, hqa⟩, T1⟩ :=
      numStepOn_facts WRec.age (fun r v => { r with age := v }) 35
        (fun q => decide (0 ≤ q ∧ q ≤ 120)) (fun _ _ => rfl) _ _ hr
    obtain ⟨r3, hr3, ⟨qreq, e_req4, hqreq⟩, T2⟩ :=
      numStepOn_facts WRec.hospitalization_requirement
        (fun r v => { r with hospitalization_requirement := v }) 10
        (fun q => decide (0 < q)) (fun _ _ => rfl) _ _ hr4
    obtain ⟨r2, hr2, ⟨qcap, e_cap3, hqcap⟩, T3⟩ :=
      numStepOn_facts WRec.hospital_capacity
        (fun r v => { r with hospital_capacity := v }) 100
        (fun q => decide (0 < q)) (fun _ _ => rfl) _ _ hr3
    obtain ⟨r1, hr1, ⟨qdnc, e_dnc2, hqdnc⟩, T4⟩ :=
      numStepOn_facts WRec.daily_new_cases
        (fun r v => { r with daily_new_cases := v }) 0
        (fun q => decide (0 ≤ q)) (fun _ _ => rfl) _ _ hr2
    simp only [binPhase] at hr1
    obtain ⟨rb, hrb, ⟨zv, e_vac1, hzv⟩, T5⟩ :=
      binStepOn_facts WRec.vaccination_status
        (fun r v => { r with vaccination_status := v }) (fun _ _ => rfl) _ _ hr1
    obtain ⟨rc, hrc, ⟨zc, e_chrb, hzc⟩, T6⟩ :=
      binStepOn_facts WRec.chronic_conditions
        (fun r v => { r with chronic_conditions := v }) (fun _ _ => rfl) _ _ hrb
    simp only [catPhase] at hrc
    obtain ⟨ri, hri, ⟨si, e_immc⟩, T7⟩ :=
      catStepOn_facts WRec.immunity_level
        (fun r v => { r with immunity_level := v }) (fun _ _ => rfl) _ _ hrc
    obtain ⟨rs, hrs, ⟨ss, e_sesi⟩, T8⟩ :=
      catStepOn_facts WRec.ses (fun r v => { r with ses := v })
        (fun _ _ => rfl) _ _ hri
    obtain ⟨rd, hrd, ⟨sl, e_locs⟩, T9⟩ :=
      catStepOn_facts WRec.location (fun r v => { r with location := v })
        (fun _ _ => rfl) _ _ hrs
    simp only [datePhase, List.mem_filter] at hrd
    obtain ⟨-, hdate⟩ := hrd
    -- carry each field fact up to the final record r
    have e_req : r.hospitalization_requirement = RVal.num qreq := by
      rw [T1 WRec.hospitalization_requirement (fun _ _ => rfl)]
      exact e_req4
    have e_cap : r.hospital_capacity = RVal.num qcap := by
      rw [T1 WRec.hospital_capacity (fun _ _ => rfl),
        T2 WRec.hospital_capacity (fun _ _ => rfl)]
      exact e_cap3
    have e_dnc : r.daily_new_cases = RVal.num qdnc := by
      rw [T1 WRec.daily_new_cases (fun _ _ => rfl),
        T2 WRec.daily_new_cases (fun _ _ => rfl),
        T3 WRec.daily_new_cases (fun _ _ => rfl)]
      exact e_dnc2
    have e_vac : r.vaccination_status = RVal.num (zv : ℚ) := by
      rw [T1 WRec.vaccination_status (fun _ _ => rfl),
        T2 WRec.vaccination_status (fun _ _ => rfl),
        T3 WRec.vaccination_status (fun _ _ => rfl),
        T4 WRec.vaccination_status (fun _ _ => rfl)]
      exact e_vac1
    have e_chr : r.chronic_conditions = RVal.num (zc : ℚ) := by
      rw [T1 WRec.chronic_conditions (fun _ _ => rfl),
        T2 WRec.chronic_conditions (fun _ _ => rfl),
        T3 WRec.chronic_conditions (fun _ _ => rfl),
        T4 WRec.chronic_conditions (fun _ _ => rfl),
        T5 WRec.chronic_conditions (fun _ _ => rfl)]
      exact e_chrb
    have e_imm : r.immunity_level = RVal.txt si := by
      rw [T1 WRec.immunity_level (fun _ _ => rfl),
        T2 WRec.immunity_level (fun _ _ => rfl),
        T3 WRec.immunity_level (fun _ _ => rfl),
        T4 WRec.immunity_level (fun _ _ => rfl),
        T5 WRec.immunity_level (fun _ _ => rfl),
        T6 WRec.immunity_level (fun _ _ => rfl)]
      exact e_immc
    have e_ses : r.ses = RVal.txt ss := by
      rw [T1 WRec.ses (fun _ _ => rfl), T2 WRec.ses (fun _ _ => rfl),
        T3 WRec.ses (fun _ _ => rfl), T4 WRec.ses (fun _ _ => rfl),
        T5 WRec.ses (fun _ _ => rfl), T6 WRec.ses (fun _ _ => rfl),
        T7 WRec.ses (fun _ _ => rfl)]
      exact e_sesi
    have e_loc : r.location = RVal.txt sl := by
      rw [T1 WRec.location (fun _ _ => rfl), T2 WRec.location (fun _ _ => rfl),
        T3 WRec.location (fun _ _ => rfl), T4 WRec.location (fun _ _ => rfl),
        T5 WRec.location (fun _ _ => rfl), T6 WRec.location (fun _ _ => rfl),
        T7 WRec.location (fun _ _ => rfl), T8 WRec.location (fun _ _ => rfl)]
      exact e_locs
    have e_date : r.date_of_onset = rd.date_of_onset := by
      rw [T1 WRec.date_of_onset (fun _ _ => rfl),
        T2 WRec.date_of_onset (fun _ _ => rfl),
        T3 WRec.date_of_onset (fun _ _ => rfl),
        T4 WRec.date_of_onset (fun _ _ => rfl),
        T5 WRec.date_of_onset (fun _ _ => rfl),
        T6 WRec.date_of_onset (fun _ _ => rfl),
        T7 WRec.date_of_onset (fun _ _ => rfl),
        T8 WRec.date_of_onset (fun _ _ => rfl),
        T9 WRec.date_of_onset (fun _ _ => rfl)]
    obtain ⟨d, hd⟩ := Option.isSome_iff_exists.mp (e_date ▸ hdate)
    refine ⟨⟨d, sl, ss, si, zc, zv, qdnc, qcap, qreq, qa, r.resource_utilization⟩,
      ?_, hzc, hzv, ?_, ?_, ?_, ?_, ?_⟩
    · simp only [toCRec, asTxt, asInt, toNumericQ, hd, e_loc, e_ses, e_imm,
        e_chr, e_vac, e_dnc, e_cap, e_req, e_age, Rat.den_intCast,
        Rat.num_intCast, Option.bind_eq_bind, Option.some_bind, if_pos rfl]
      simp
    · exact (of_decide_eq_true hqa).1
    · exact (of_decide_eq_true hqa).2
    · exact of_decide_eq_true hqdnc
    · exact of_decide_eq_true hqcap
    · exact of_decide_eq_true hqreq

set_option maxHeartbeats 4000000 in
set_option maxRecDepth 16000 in
/-- Witness for `cleaner_invariants` on the one-row frame `wRaw`. -/
theorem cleaner_invariants_witness :
    wClean ≠ [] ∧ ∀ r ∈ wClean, ∃ c : CRec, toCRec r = some c ∧
      (c.chronic_conditions = 0 ∨ c.chronic_conditions = 1) ∧
      (c.vaccination_status = 0 ∨ c.vaccination_status = 1) ∧
      0 ≤ c.age ∧ c.age ≤ 120 ∧ 0 ≤ c.daily_new_cases ∧
      0 < c.hospital_capacity ∧ 0 < c.hospitalization_requirement :=
  cleaner_invariants wRaw wClean (by with_unfolding_all decide)

set_option maxHeartbeats 4000000 in
set_option maxRecDepth 16000 in
/-- C6 (amended): the binary rule coerces, fills nulls with 0, then
truncates to an integer (`astype(int)`), and only then drops rows whose
truncated value is outside {0, 1}; a row whose truncation lands in
{0, 1} is kept with the truncated value. -/
theorem binary_truncation_rule (q : ℚ) :
    (truncToInt q = 0 ∨ truncToInt q = 1 →
      clean_raw_data [rqRow q] = .ok [c6Cleaned (truncToInt q)]) ∧
    (truncToInt q ≠ 0 → truncToInt q ≠ 1 →
      clean_raw_data [rqRow q] = .error cleanErrMsg) := by
  have hmid : binPhase (catPhase (datePhase [rqRow q])) =
      List.filter (fun r =>
        r.vaccination_status == RVal.num 0 || r.vaccination_status == RVal.num 1)
        [c6Cleaned (truncToInt q)] := by
    with_unfolding_all rfl
  constructor
  · rintro (hz | hz) <;>
      · simp only [clean_raw_data]
        rw [hmid, hz]
        with_unfolding_all decide
  · intro h0 h1
    simp only [clean_raw_data]
    rw [hmid]
    have hpred : ((c6Cleaned (truncToInt q)).vaccination_status == RVal.num 0 ||
        (c6Cleaned (truncToInt q)).vaccination_status == RVal.num 1) = false := by
      simp [c6Cleaned, Int.cast_eq_zero, Int.cast_eq_one, h0, h1]
    simp only [List.filter, hpred]
    with_unfolding_all decide

set_option maxHeartbeats 4000000 in
set_option maxRecDepth 16000 in
/-- C6 counterexample: a raw row with vaccination value 0.5 is kept by
the Cleaner (truncated to 0), not dropped. -/
theorem binary_half_kept_counterexample :
    clean_raw_data [rqRow (1 / 2)] = .ok [c6Cleaned 0] := by
  with_unfolding_all decide

set_option maxHeartbeats 4000000 in
set_option maxRecDepth 16000 in
/-- Witness for `binary_truncation_rule`: vaccination value 1.5 is
truncated to 1 and kept. -/
theorem binary_truncation_rule_witness :
    clean_raw_data [rqRow (3 / 2)] = .ok [c6Cleaned 1] := by
  have h := (binary_truncation_rule (3 / 2)).1 (Or.inr (by with_unfolding_all decide))
  rwa [show truncToInt (3 / 2) = (1 : ℤ) by with_unfolding_all decide] at h

end PHPipeline
